import Mathlib

/-!
Verification of `aiobotocore/credentials.py` (credential resolution and
refresh engine).

The Python source is shallowly embedded: each relevant class/function is
translated into a Lean definition operating on explicit state records.
Times are modelled as integers (seconds); Python `None` becomes `Option`;
raised exceptions become `Except` errors; `async` coroutine values that
are returned without being awaited are modelled explicitly (see
`SourceCredsResult.unawaitedCoroutine`).
-/

/-! ## Credential value types

Embeds `botocore.credentials.ReadOnlyCredentials` (the frozen snapshot
handed to signers) and the normalized credential-metadata dict
`{access_key, secret_key, token, expiry_time}` produced by refresh
functions and fetchers. -/

structure ReadOnlyCredentials where
  access_key : Option String
  secret_key : Option String
  token : Option String
deriving Repr, DecidableEq

structure CredentialMetadata where
  access_key : Option String
  secret_key : Option String
  token : Option String
  expiry_time : Int
deriving Repr, DecidableEq

/-- The mutable fields of an `AioRefreshableCredentials` object
(`credentials.py` lines 190-311).  `_expiry_time = none` corresponds to
Python `self._expiry_time = None` (the deferred variant's initial state),
and `_frozen_credentials = none` to an unset frozen snapshot. -/
structure RefreshableState where
  _access_key : Option String
  _secret_key : Option String
  _token : Option String
  _expiry_time : Option Int
  _frozen_credentials : Option ReadOnlyCredentials
deriving Repr, DecidableEq

/-- Modelled from the spec: the advisory refresh window of the base
refreshable credential (refresh desirable but not urgent), 15 minutes. -/
def advisory_refresh_timeout : Int := 15 * 60

/-- Modelled from the spec: the mandatory refresh window (refresh
required; failures fatal to the caller), 10 minutes. -/
def mandatory_refresh_timeout : Int := 10 * 60

/-- Modelled from the spec: the base-class predicate
`RefreshableCredentials.refresh_needed(refresh_in)` used by the source at
lines 242-259 — true when an expiry time is set and the seconds remaining
until it fall strictly below the `refresh_in` window. -/
def refresh_needed (s : RefreshableState) (refresh_in : Int) (now : Int) : Bool :=
  match s._expiry_time with
  | none => false
  | some e => decide (e - now < refresh_in)

/-- Modelled from the spec: `_is_expired` is `refresh_needed` with a zero
window — the credential's expiry time is strictly in the past. -/
def _is_expired (s : RefreshableState) (now : Int) : Bool :=
  refresh_needed s 0 now

/-- Modelled from the spec: the base-class `_set_from_data(metadata)`
overwrites the underlying key-material fields and the expiry time from a
normalized metadata record (source line 280). -/
def _set_from_data (m : CredentialMetadata) (s : RefreshableState) : RefreshableState :=
  { s with
    _access_key := m.access_key
    _secret_key := m.secret_key
    _token := m.token
    _expiry_time := some m.expiry_time }

/-- `AioDeferredRefreshableCredentials.refresh_needed` (source lines
306-311): always true while no frozen snapshot has ever been computed,
otherwise defer to the base check. -/
def deferred_refresh_needed (s : RefreshableState) (refresh_in : Int) (now : Int) : Bool :=
  if s._frozen_credentials = none then true
  else refresh_needed s refresh_in now

/-- Errors that `_protected_refresh` can raise (source lines 263-287):
the exception propagated from `refresh_using` during a mandatory refresh,
and the `RuntimeError` raised when a successful refresh yields
already-expired credentials. -/
inductive RefreshError where
  | refreshUsingFailed
  | credentialsStillExpired
deriving Repr, DecidableEq

/-- The state update of the success path of `_protected_refresh` (source
lines 280-282): `_set_from_data(metadata)` followed by recomputing
`_frozen_credentials` from the updated fields. -/
def applyRefreshData (m : CredentialMetadata) (s : RefreshableState) : RefreshableState :=
  let s' := _set_from_data m s
  { s' with _frozen_credentials := some ⟨s'._access_key, s'._secret_key, s'._token⟩ }

/-- `AioRefreshableCredentials._protected_refresh(is_mandatory)` (source
lines 263-287).  The outcome of `await self._refresh_using()` is passed in
as `r` (`.error` = the call raised).  On failure: propagate when
mandatory, otherwise swallow and leave the state untouched.  On success:
install the metadata and the new frozen snapshot, then raise if the
result is already expired. -/
def _protected_refresh (r : Except Unit CredentialMetadata) (is_mandatory : Bool)
    (s : RefreshableState) (now : Int) : Except RefreshError RefreshableState :=
  match r with
  | .error _ => if is_mandatory then .error .refreshUsingFailed else .ok s
  | .ok metadata =>
    let s' := applyRefreshData metadata s
    if _is_expired s' now then .error .credentialsStillExpired else .ok s'

/-- `AioRefreshableCredentials._refresh` (source lines 241-261) for a
single caller with the refresh lock free (the sequential execution of the
method; the concurrent interleavings are modelled separately below).
Returns the resulting state (or raised error) paired with the number of
times `refresh_using` was invoked. -/
def _refresh_seq (r : Except Unit CredentialMetadata) (s : RefreshableState)
    (now : Int) : Except RefreshError RefreshableState × Nat :=
  if ¬ refresh_needed s advisory_refresh_timeout now then (.ok s, 0)
  else
    -- lock is free: acquire it, re-check, and perform the protected refresh
    if ¬ refresh_needed s advisory_refresh_timeout now then (.ok s, 0)
    else
      let is_mandatory := refresh_needed s mandatory_refresh_timeout now
      (_protected_refresh r is_mandatory s now, 1)

/-- `AioRefreshableCredentials.get_frozen_credentials` (source lines
289-291): `await self._refresh()` then return `self._frozen_credentials`.
The pair carries the post-state and the `refresh_using` invocation
count. -/
def get_frozen_credentials_seq (r : Except Unit CredentialMetadata)
    (s : RefreshableState) (now : Int) :
    Except RefreshError (Option ReadOnlyCredentials × RefreshableState) × Nat :=
  match _refresh_seq r s now with
  | (.error e, n) => (.error e, n)
  | (.ok s', n) => (.ok (s'._frozen_credentials, s'), n)

/-! ## Property getters and setters of `AioRefreshableCredentials`

Source lines 206-239: the getters are redeclared to raise
`NotImplementedError` unconditionally (the `return` after the `raise` is
dead code); the setters assign the underlying fields. -/

inductive PyError where
  | notImplementedError
deriving Repr, DecidableEq

def access_key_get (_s : RefreshableState) : Except PyError (Option String) :=
  .error .notImplementedError

def access_key_set (s : RefreshableState) (v : Option String) : RefreshableState :=
  { s with _access_key := v }

def secret_key_get (_s : RefreshableState) : Except PyError (Option String) :=
  .error .notImplementedError

def secret_key_set (s : RefreshableState) (v : Option String) : RefreshableState :=
  { s with _secret_key := v }

def token_get (_s : RefreshableState) : Except PyError (Option String) :=
  .error .notImplementedError

def token_set (s : RefreshableState) (v : Option String) : RefreshableState :=
  { s with _token := v }

/-! ## Provider chain resolution — `AioCredentialResolver.load_credentials`

Source lines 778-797.  A provider's observable behaviour in one
resolution pass is its `load()` result, so a chain is a list of
`Option Credential` values.  `load_credentials_trace` returns the final
result together with the list of `load()` results actually consumed, in
order (the loop stops at the first non-`None`). -/

structure Credential where
  access_key : String
  secret_key : String
  token : Option String
deriving Repr, DecidableEq

def load_credentials_trace : List (Option Credential) →
    Option Credential × List (Option Credential)
  | [] => (none, [])
  | p :: ps =>
    match p with
    | some c => (some c, [some c])
    | none =>
      let (r, t) := load_credentials_trace ps
      (r, none :: t)

/-- `AioCredentialResolver.load_credentials`: first non-`None` wins,
`None` when the chain is exhausted. -/
def load_credentials (ps : List (Option Credential)) : Option Credential :=
  (load_credentials_trace ps).1

/-! ## Default chain composition — `create_credential_resolver`

Source lines 28-101.  Providers are identified by tags; the chain is the
fixed pre-profile / profile / post-profile concatenation, with the
environment provider removed (Python `list.remove`, i.e. first
occurrence) when the caller explicitly set a profile
(`disable_env_vars`). -/

inductive ProviderTag where
  | env
  | assumeRole
  | process
  | sharedCredentials
  | config
  | webIdentity
  | originalEC2
  | boto
  | container
  | instanceMetadata
deriving Repr, DecidableEq, BEq

/-- Modelled from the spec: `ProfileProviderBuilder.providers` (the
profile-scoped sub-chain built at source line 68, whose body lives in
botocore) — external process, shared-credentials file, shared-config
file, web-identity assume-role, in priority order. -/
def profileProviders : List ProviderTag :=
  [.process, .sharedCredentials, .config, .webIdentity]

/-- `create_credential_resolver` chain construction (source lines 64-100):
`pre_profile ++ profile_providers ++ post_profile`, then
`providers.remove(env_provider)` when `disable_env_vars` holds. -/
def credentialChain (disable_env_vars : Bool) : List ProviderTag :=
  let providers : List ProviderTag :=
    [.env, .assumeRole] ++ profileProviders ++
      [.originalEC2, .boto, .container, .instanceMetadata]
  if disable_env_vars then providers.erase .env else providers

/-- Running the default chain against a table of per-provider `load()`
results: the resolver returned by `create_credential_resolver` applied
via `AioCredentialResolver.load_credentials`. -/
def resolveDefaultChain (loads : ProviderTag → Option Credential)
    (disable_env_vars : Bool) : Option Credential :=
  load_credentials ((credentialChain disable_env_vars).map loads)

/-! ## Cached credential fetcher — `AioCachedCredentialFetcher`

Source lines 314-341.  The raw response of the role-assumption API and
the cache (a key-value mapping whose values are raw responses). -/

structure STSCredentials where
  accessKeyId : String
  secretAccessKey : String
  sessionToken : String
  expiration : Int
deriving Repr, DecidableEq

structure STSResponse where
  credentials : STSCredentials
deriving Repr, DecidableEq

def CredCache := List (String × STSResponse)

/-- Modelled from the spec: a cached record is expired when its
expiration time is not in the future. -/
def cacheEntryExpired (r : STSResponse) (now : Int) : Bool :=
  decide (r.credentials.expiration ≤ now)

/-- Modelled from the spec: `CachedCredentialFetcher._load_from_cache`
(base-class body) — a cache hit is returned only when the entry is not
expired; a miss or an expired entry yields `none`. -/
def _load_from_cache (cache : CredCache) (key : String) (now : Int) :
    Option STSResponse :=
  match cache.lookup key with
  | none => none
  | some r => if cacheEntryExpired r now then none else some r

/-- Modelled from the spec: `CachedCredentialFetcher._write_to_cache`
(base-class body) — store the raw response under the fetcher's cache
key. -/
def _write_to_cache (cache : CredCache) (key : String) (r : STSResponse) :
    CredCache :=
  (key, r) :: cache

/-- The normalization of the raw response performed at source lines
334-341: extract `response['Credentials']` and rename the fields into
the common `CredentialMetadata` currency. -/
def normalizeResponse (r : STSResponse) : CredentialMetadata :=
  { access_key := some r.credentials.accessKeyId
    secret_key := some r.credentials.secretAccessKey
    token := some r.credentials.sessionToken
    expiry_time := r.credentials.expiration }

/-- `AioCachedCredentialFetcher._get_cached_credentials` (source lines
321-341), which is also the body of `fetch_credentials` (line 318).
`fetched` is the value `await self._get_credentials()` would produce; the
`Nat` counts how many times `_get_credentials` was called. -/
def _get_cached_credentials (fetched : STSResponse) (cache : CredCache)
    (key : String) (now : Int) : CredentialMetadata × CredCache × Nat :=
  match _load_from_cache cache key now with
  | none => (normalizeResponse fetched, _write_to_cache cache key fetched, 1)
  | some response => (normalizeResponse response, cache, 0)

/-! ## Assume-role source resolution — `AioAssumeRoleProvider`

Source lines 519-631. -/

/-- A profile's settings relevant to assume-role resolution (the nested
configuration mapping of the spec's §6). -/
structure Profile where
  role_arn : Option String
  source_profile : Option String
  credential_source : Option String
  aws_access_key_id : Option String
  aws_secret_access_key : Option String
  aws_session_token : Option String
deriving Repr, DecidableEq

def ProfileMap := List (String × Profile)

/-- Modelled from the spec: `AssumeRoleProvider._has_assume_role_config_vars`
— the profile carries role-assumption keys (`role_arn` plus either
`source_profile` or `credential_source`). -/
def _has_assume_role_config_vars (p : Profile) : Bool :=
  p.role_arn.isSome && (p.source_profile.isSome || p.credential_source.isSome)

/-- Modelled from the spec: `AssumeRoleProvider._has_static_credentials` —
the profile carries static access-key configuration. -/
def _has_static_credentials (p : Profile) : Bool :=
  p.aws_access_key_id.isSome || p.aws_secret_access_key.isSome

inductive ResolveError where
  | partialCredentials
  | invalidConfig
  | keyError
deriving Repr, DecidableEq

/-- `AioAssumeRoleProvider._resolve_static_credentials_from_profile`
(source lines 608-617): build an `AioCredentials` from the profile's
static keys, raising `PartialCredentialsError` on a missing required
key (`aws_session_token` is optional via `.get`). -/
def _resolve_static_credentials_from_profile (p : Profile) :
    Except ResolveError Credential :=
  match p.aws_access_key_id with
  | none => .error .partialCredentials
  | some ak =>
    match p.aws_secret_access_key with
    | none => .error .partialCredentials
    | some sk => .ok ⟨ak, sk, p.aws_session_token⟩

/-- The value `_resolve_credentials_from_profile` hands back to its
caller.  Because the method is an `async def`, returning
`self._load_creds_via_assume_role(profile_name)` *without* `await`
(source line 606) hands back the coroutine object itself, not the
credentials it would produce; the embedding keeps that distinction. -/
inductive SourceCredsResult where
  | credsVal (c : Credential)
  | unawaitedCoroutine (profile_name : String)
deriving Repr, DecidableEq

/-- `AioAssumeRoleProvider._resolve_credentials_from_profile` (source
lines 582-606).  `hasBuilder` is the truthiness of
`self._profile_provider_builder`; `chainLoad p` is the result the
profile-scoped sub-chain (`AioCredentialResolver` over
`profile_providers`, line 591-596) would load for profile `p`. -/
def _resolve_credentials_from_profile (cfg : ProfileMap) (hasBuilder : Bool)
    (chainLoad : String → Option Credential) (profile_name : String) :
    Except ResolveError SourceCredsResult :=
  match cfg.lookup profile_name with
  | none => .error .keyError
  | some profile =>
    if _has_static_credentials profile && !hasBuilder then
      match _resolve_static_credentials_from_profile profile with
      | .error e => .error e
      | .ok c => .ok (.credsVal c)
    else if _has_static_credentials profile ||
        !(_has_assume_role_config_vars profile) then
      match chainLoad profile_name with
      | none => .error .invalidConfig
      | some c => .ok (.credsVal c)
    else
      -- line 606: `return self._load_creds_via_assume_role(profile_name)`
      -- with no `await`: the caller receives the coroutine object.
      .ok (.unawaitedCoroutine profile_name)

/-! ## Canonical-name sourcer — `AioCanonicalNameCredentialSourcer`

Source lines 675-726. -/

/-- A registered provider as the sourcer sees it: its canonical name (if
any), its `METHOD` string, and its `load()` result. -/
structure SourcedProvider where
  canonical_name : Option String
  method : String
  loadResult : Option Credential
deriving Repr, DecidableEq

/-- Python's `str.lower()` for the ASCII canonical names, written with
structural recursion so that concrete lookups evaluate in the kernel. -/
def strLower (s : String) : String := ⟨s.data.map Char.toLower⟩

/-- Modelled from the spec: the base-class lookup of a provider by
canonical name — the first registered provider whose (non-empty)
canonical name matches case-insensitively. -/
def _get_provider_by_canonical_name (providers : List SourcedProvider)
    (canonical_name : String) : Option SourcedProvider :=
  providers.find? fun p =>
    match p.canonical_name with
    | none => false
    | some s => !(s = "") && (strLower s = strLower canonical_name)

/-- Modelled from the spec: the base-class lookup of a provider by its
`METHOD` string. -/
def _get_provider_by_method (providers : List SourcedProvider)
    (method : String) : Option SourcedProvider :=
  providers.find? fun p => p.method = method

inductive SourcerError where
  | unknownCredentialError
deriving Repr, DecidableEq

/-- What `_get_provider` hands back: a bare provider or a small
`AioCredentialResolver` over a list of providers. -/
inductive ProviderOrResolver where
  | single (p : SourcedProvider)
  | resolver (ps : List SourcedProvider)
deriving Repr, DecidableEq

/-- `AioCanonicalNameCredentialSourcer._get_provider` (source lines
690-726): canonical lookup, then the SharedConfig/SharedCredentials
special case folding in the assume-role provider, then the
`UnknownCredentialError` fallback. -/
def _get_provider (providers : List SourcedProvider) (canonical_name : String) :
    Except SourcerError ProviderOrResolver :=
  let provider := _get_provider_by_canonical_name providers canonical_name
  let sharedFamily : Bool :=
    strLower canonical_name = "sharedconfig" ||
      strLower canonical_name = "sharedcredentials"
  match
    (if sharedFamily then _get_provider_by_method providers "assume-role"
     else none) with
  | some assume_role_provider =>
    match provider with
    | none => .ok (.single assume_role_provider)
    | some p => .ok (.resolver [assume_role_provider, p])
  | none =>
    match provider with
    | none => .error .unknownCredentialError
    | some p => .ok (.single p)

/-- `AioCanonicalNameCredentialSourcer.source_credentials` (source lines
676-688): resolve the provider, then `load_credentials()` on a resolver
or `load()` on a bare provider. -/
def source_credentials (providers : List SourcedProvider)
    (source_name : String) : Except SourcerError (Option Credential) :=
  match _get_provider providers source_name with
  | .error e => .error e
  | .ok (.single p) => .ok p.loadResult
  | .ok (.resolver ps) => .ok (load_credentials (ps.map SourcedProvider.loadResult))

/-! ## Concurrent refresh — interleaving model of `_refresh`

Source lines 241-261 under cooperative (asyncio) scheduling: execution
only switches tasks at `await` points, so each code segment between two
awaits is atomic.  The suspension points of `_refresh` are acquiring
`self._refresh_lock` when it is contended and the
`await self._refresh_using()` call inside `_protected_refresh`.

`N` callers concurrently execute `get_frozen_credentials` on one
credential object.  Task identity is irrelevant to the properties proved,
so the task pool is kept as counters per status:

* `nNotStarted` — tasks that have not yet run their first segment;
* `nWaiting`    — tasks suspended in `await self._refresh_lock.acquire()`
                  on the mandatory-wait branch (lines 254-257);
* `nRefreshing` — the task holding the lock, suspended in
                  `await self._refresh_using()` (line 265);
* `nDone`       — tasks that returned from `_refresh`.

Each `RefreshStep` constructor is one atomic segment of the Python code
(the guard conditions are the `if` conditions evaluated in that
segment).  The lock may be handed to *any* eligible task, which
over-approximates asyncio's FIFO wakeup: every real schedule is a trace
of this relation.  `completeRefresh` covers the successful-refresh
outcome (the metadata `m` below is the value `refresh_using` returns;
its non-expiry is the constructor's guard, matching the fall-through of
lines 283-287). -/

structure RefreshSys where
  cred : RefreshableState
  lockHeld : Bool
  nNotStarted : Nat
  nWaiting : Nat
  nRefreshing : Nat
  nDone : Nat
  refreshCount : Nat
deriving Repr, DecidableEq

inductive RefreshStep (now : Int) (m : CredentialMetadata) :
    RefreshSys → RefreshSys → Prop where
  /-- Lines 242-243: `refresh_needed(advisory)` is false — return at
  once without touching the lock. -/
  | startReturnFresh (s : RefreshSys) :
      0 < s.nNotStarted →
      refresh_needed s.cred advisory_refresh_timeout now = false →
      RefreshStep now m s
        { s with nNotStarted := s.nNotStarted - 1, nDone := s.nDone + 1 }
  /-- Lines 246-252: refresh needed, `locked()` is false — acquire the
  lock (no suspension in asyncio when uncontended), re-check, compute
  `is_mandatory`, and suspend inside `refresh_using`. -/
  | startRefresh (s : RefreshSys) :
      0 < s.nNotStarted →
      refresh_needed s.cred advisory_refresh_timeout now = true →
      s.lockHeld = false →
      RefreshStep now m s
        { s with nNotStarted := s.nNotStarted - 1,
                 nRefreshing := s.nRefreshing + 1, lockHeld := true }
  /-- Lines 254-257: refresh needed, lock held, mandatory window elapsed
  — suspend waiting for the lock. -/
  | startWait (s : RefreshSys) :
      0 < s.nNotStarted →
      refresh_needed s.cred advisory_refresh_timeout now = true →
      s.lockHeld = true →
      refresh_needed s.cred mandatory_refresh_timeout now = true →
      RefreshStep now m s
        { s with nNotStarted := s.nNotStarted - 1, nWaiting := s.nWaiting + 1 }
  /-- Lines 246/254 fall-through: refresh advisable, lock held, but the
  mandatory window has not elapsed — return immediately without ever
  blocking on the in-flight refresh. -/
  | startAdvisorySkip (s : RefreshSys) :
      0 < s.nNotStarted →
      refresh_needed s.cred advisory_refresh_timeout now = true →
      s.lockHeld = true →
      refresh_needed s.cred mandatory_refresh_timeout now = false →
      RefreshStep now m s
        { s with nNotStarted := s.nNotStarted - 1, nDone := s.nDone + 1 }
  /-- Lines 265, 280-287 (success): `refresh_using` returns `m`, the
  fields and frozen snapshot are installed, the fresh result is not
  already expired, and the lock is released. -/
  | completeRefresh (s : RefreshSys) :
      0 < s.nRefreshing →
      _is_expired (applyRefreshData m s.cred) now = false →
      RefreshStep now m s
        { s with cred := applyRefreshData m s.cred,
                 nRefreshing := s.nRefreshing - 1, nDone := s.nDone + 1,
                 lockHeld := false,
                 refreshCount := s.refreshCount + 1 }
  /-- Lines 257-260: a waiter acquires the released lock, re-checks
  `refresh_needed(mandatory)`, finds the credential already refreshed,
  releases and returns. -/
  | resumeFresh (s : RefreshSys) :
      0 < s.nWaiting →
      s.lockHeld = false →
      refresh_needed s.cred mandatory_refresh_timeout now = false →
      RefreshStep now m s
        { s with nWaiting := s.nWaiting - 1, nDone := s.nDone + 1 }
  /-- Lines 257-261: a waiter acquires the released lock, still needs a
  mandatory refresh, and suspends inside `refresh_using`. -/
  | resumeRefresh (s : RefreshSys) :
      0 < s.nWaiting →
      s.lockHeld = false →
      refresh_needed s.cred mandatory_refresh_timeout now = true →
      RefreshStep now m s
        { s with nWaiting := s.nWaiting - 1,
                 nRefreshing := s.nRefreshing + 1, lockHeld := true }

/-- The initial system: `n` callers about to call
`get_frozen_credentials` on a credential object in state `s₀`, lock free,
no refresh performed yet. -/
def initRefreshSys (s₀ : RefreshableState) (n : Nat) : RefreshSys :=
  { cred := s₀, lockHeld := false, nNotStarted := n, nWaiting := 0,
    nRefreshing := 0, nDone := 0, refreshCount := 0 }

/-- All `n` callers have returned from `_refresh`. -/
def allDone (s : RefreshSys) : Prop :=
  s.nNotStarted = 0 ∧ s.nWaiting = 0 ∧ s.nRefreshing = 0

/-- Reachability over interleavings. -/
def RefreshReachable (now : Int) (m : CredentialMetadata) :
    RefreshSys → RefreshSys → Prop :=
  Relation.ReflTransGen (RefreshStep now m)

/-! ## Shared lemmas about the refresh windows -/

theorem refresh_needed_mandatory_advisory (s : RefreshableState) (now : Int)
    (h : refresh_needed s mandatory_refresh_timeout now = true) :
    refresh_needed s advisory_refresh_timeout now = true := by
  unfold refresh_needed at h ⊢
  cases he : s._expiry_time with
  | none => rw [he] at h; exact absurd h (by simp)
  | some e =>
    rw [he] at h
    simp only [decide_eq_true_eq, advisory_refresh_timeout,
      mandatory_refresh_timeout] at h ⊢
    omega

theorem refresh_needed_after_fresh_data (m : CredentialMetadata)
    (s : RefreshableState) (w now : Int) (hw : w ≤ advisory_refresh_timeout)
    (hm : advisory_refresh_timeout ≤ m.expiry_time - now) :
    refresh_needed (applyRefreshData m s) w now = false := by
  simp only [refresh_needed, applyRefreshData, _set_from_data]
  simp only [decide_eq_false_iff_not, not_lt]
  omega

/-! ## Claims about the sequential refresh protocol -/

/-- C1: when a refresh is actually performed (the advisory window has
elapsed) and `refresh_using` raises, the error propagates to the caller
of `get_frozen_credentials` exactly when the refresh was mandatory; when
it was only advisory the error is swallowed, the state is unchanged and
the previously held frozen key material is returned. -/
theorem c1_refresh_failure_policy (s : RefreshableState) (now : Int)
    (hadv : refresh_needed s advisory_refresh_timeout now = true) :
    (refresh_needed s mandatory_refresh_timeout now = true →
      get_frozen_credentials_seq (.error ()) s now
        = (.error .refreshUsingFailed, 1)) ∧
    (refresh_needed s mandatory_refresh_timeout now = false →
      get_frozen_credentials_seq (.error ()) s now
        = (.ok (s._frozen_credentials, s), 1)) := by
  constructor
  · intro hman
    simp [get_frozen_credentials_seq, _refresh_seq, hadv, _protected_refresh, hman]
  · intro hman
    simp [get_frozen_credentials_seq, _refresh_seq, hadv, _protected_refresh, hman]

/-- Witness for C1: a credential 5 seconds past expiry (mandatory) sees
the failure propagate; one with 700 seconds remaining (advisory only)
keeps and returns its old key material. -/
theorem c1_refresh_failure_policy_witness :
    get_frozen_credentials_seq (.error ())
      ⟨some "AK", some "SK", some "TK", some (-5),
        some ⟨some "AK", some "SK", some "TK"⟩⟩ 0
      = (.error .refreshUsingFailed, 1) ∧
    get_frozen_credentials_seq (.error ())
      ⟨some "AK", some "SK", some "TK", some 700,
        some ⟨some "AK", some "SK", some "TK"⟩⟩ 0
      = (.ok (some ⟨some "AK", some "SK", some "TK"⟩,
          ⟨some "AK", some "SK", some "TK", some 700,
            some ⟨some "AK", some "SK", some "TK"⟩⟩), 1) :=
  ⟨(c1_refresh_failure_policy _ 0 (by decide)).1 (by decide),
   (c1_refresh_failure_policy _ 0 (by decide)).2 (by decide)⟩

/-- The state used in the counterexample to C3: 700 seconds remain until
expiry, so the mandatory window (600 s) has not elapsed but the advisory
window (900 s) has. -/
def c3_state : RefreshableState :=
  ⟨some "AK", some "SK", some "TK", some 700,
    some ⟨some "AK", some "SK", some "TK"⟩⟩

def c3_meta : CredentialMetadata :=
  ⟨some "AK2", some "SK2", some "TK2", 100000⟩

/-- C3 counterexample: with the mandatory window not yet elapsed (but the
advisory window elapsed and the lock free), `get_frozen_credentials`
*does* invoke `refresh_using` (count 1) and returns the freshly fetched
key material, not the previous snapshot. -/
theorem c3_counterexample :
    refresh_needed c3_state mandatory_refresh_timeout 0 = false ∧
    (get_frozen_credentials_seq (.ok c3_meta) c3_state 0).2 = 1 ∧
    (get_frozen_credentials_seq (.ok c3_meta) c3_state 0).1
      = .ok (some ⟨some "AK2", some "SK2", some "TK2"⟩,
          applyRefreshData c3_meta c3_state) ∧
    some (⟨some "AK2", some "SK2", some "TK2"⟩ : ReadOnlyCredentials)
      ≠ c3_state._frozen_credentials :=
  ⟨by decide, by decide, rfl, by decide⟩

/-- C3 (amended): for every refreshable credential whose *advisory*
window has not elapsed, `get_frozen_credentials` returns the existing
frozen snapshot unchanged without invoking `refresh_using`. -/
theorem c3_no_refresh_before_advisory (r : Except Unit CredentialMetadata)
    (s : RefreshableState) (now : Int)
    (h : refresh_needed s advisory_refresh_timeout now = false) :
    get_frozen_credentials_seq r s now = (.ok (s._frozen_credentials, s), 0) := by
  simp [get_frozen_credentials_seq, _refresh_seq, h]

/-- Witness for the amended C3: 100000 seconds remain, no refresh
happens. -/
theorem c3_no_refresh_before_advisory_witness :
    get_frozen_credentials_seq (.ok c3_meta)
      ⟨some "AK", some "SK", some "TK", some 100000,
        some ⟨some "AK", some "SK", some "TK"⟩⟩ 0
      = (.ok (some ⟨some "AK", some "SK", some "TK"⟩,
          ⟨some "AK", some "SK", some "TK", some 100000,
            some ⟨some "AK", some "SK", some "TK"⟩⟩), 0) :=
  c3_no_refresh_before_advisory (.ok c3_meta) _ 0 (by decide)

/-- C4: when a performed refresh succeeds but the returned metadata's
expiry time is already in the past, `_protected_refresh` raises the
fatal "still expired" error to the caller of `get_frozen_credentials`
instead of silently accepting the stale result. -/
theorem c4_refreshed_but_expired_raises (s : RefreshableState) (now : Int)
    (m : CredentialMetadata)
    (hadv : refresh_needed s advisory_refresh_timeout now = true)
    (hexp : m.expiry_time < now) :
    get_frozen_credentials_seq (.ok m) s now
      = (.error .credentialsStillExpired, 1) := by
  have hexp' : _is_expired (applyRefreshData m s) now = true := by
    simp only [_is_expired, refresh_needed, applyRefreshData, _set_from_data,
      decide_eq_true_eq]
    omega
  simp [get_frozen_credentials_seq, _refresh_seq, hadv, _protected_refresh, hexp']

/-- Witness for C4: an expired credential refreshes into metadata whose
expiry (-3) is already past — the fatal error is raised. -/
theorem c4_refreshed_but_expired_raises_witness :
    get_frozen_credentials_seq (.ok ⟨some "AK2", some "SK2", some "TK2", -3⟩)
      ⟨some "AK", some "SK", some "TK", some (-5),
        some ⟨some "AK", some "SK", some "TK"⟩⟩ 0
      = (.error .credentialsStillExpired, 1) :=
  c4_refreshed_but_expired_raises _ 0 _ (by decide) (by decide)

/-- C10: on `AioRefreshableCredentials` (and its deferred subclass, which
inherits these properties) reading `access_key`, `secret_key` or `token`
raises `NotImplementedError` in every state, while the setters still
assign the underlying fields; the frozen snapshot remains reachable
through `get_frozen_credentials`. -/
theorem c10_direct_key_access_raises :
    ∀ (s : RefreshableState) (v : Option String),
      access_key_get s = .error .notImplementedError ∧
      secret_key_get s = .error .notImplementedError ∧
      token_get s = .error .notImplementedError ∧
      (access_key_set s v)._access_key = v ∧
      (secret_key_set s v)._secret_key = v ∧
      (token_set s v)._token = v := by
  intro s v
  exact ⟨rfl, rfl, rfl, rfl, rfl, rfl⟩

/-! ## Claims about the resolver chain -/

/-- C2: `load_credentials` asks the providers strictly in list order,
returns the first non-null credential having consumed exactly the
providers up to and including it (the trace is `l₁ ++ [some c]`, so no
later provider is ever invoked), and returns `none` — not an error —
when every provider returns `none` (having consumed them all). -/
theorem c2_resolver_first_nonnull_wins :
    (∀ (l₁ l₂ : List (Option Credential)) (c : Credential),
      (∀ x ∈ l₁, x = none) →
      load_credentials_trace (l₁ ++ some c :: l₂) = (some c, l₁ ++ [some c])) ∧
    (∀ l : List (Option Credential),
      (∀ x ∈ l, x = none) → load_credentials_trace l = (none, l)) := by
  constructor
  · intro l₁ l₂ c h
    induction l₁ with
    | nil => simp [load_credentials_trace]
    | cons a t ih =>
      have ha : a = none := h a (by simp)
      have ht : ∀ x ∈ t, x = none := fun x hx => h x (by simp [hx])
      subst ha
      simp [load_credentials_trace, ih ht]
  · intro l h
    induction l with
    | nil => simp [load_credentials_trace]
    | cons a t ih =>
      have ha : a = none := h a (by simp)
      have ht : ∀ x ∈ t, x = none := fun x hx => h x (by simp [hx])
      subst ha
      simp [load_credentials_trace, ih ht]

/-- Witness for C2: two empty providers, then a hit, then a provider that
is never consulted; and a chain of two empty providers yielding `none`. -/
theorem c2_resolver_first_nonnull_wins_witness :
    load_credentials_trace
        [none, none, some ⟨"AK", "SK", none⟩, some ⟨"ZK", "ZS", none⟩]
      = (some ⟨"AK", "SK", none⟩, [none, none, some ⟨"AK", "SK", none⟩]) ∧
    load_credentials_trace [none, none] = (none, [none, none]) :=
  ⟨c2_resolver_first_nonnull_wins.1 [none, none] [some ⟨"ZK", "ZS", none⟩]
      ⟨"AK", "SK", none⟩ (by decide),
   c2_resolver_first_nonnull_wins.2 [none, none] (by decide)⟩

/-- C7 counterexample: with an explicitly specified profile
(`disable_env_vars = true`), environment credentials do *not* win when
every profile-aware provider returns nothing — the environment provider
was removed from the chain, so resolution yields `none` rather than the
environment credentials. -/
theorem c7_counterexample :
    resolveDefaultChain
        (fun t => if t = .env then some ⟨"EAK", "ESK", none⟩ else none) true
      = none ∧
    (none : Option Credential) ≠ some ⟨"EAK", "ESK", none⟩ :=
  ⟨by decide, by decide⟩

/-- C7 (amended): when the caller explicitly specifies a profile the
environment-variable provider is removed from the default chain (so
ambient environment credentials are never consulted by it), the rest of
the chain keeping its order; when no profile is explicitly specified the
environment-variable provider stays first. -/
theorem c7_env_provider_removal :
    (credentialChain true).contains .env = false ∧
    credentialChain true
      = [.assumeRole, .process, .sharedCredentials, .config, .webIdentity,
         .originalEC2, .boto, .container, .instanceMetadata] ∧
    (credentialChain false).head? = some .env ∧
    credentialChain false
      = [.env, .assumeRole, .process, .sharedCredentials, .config, .webIdentity,
         .originalEC2, .boto, .container, .instanceMetadata] := by
  decide

/-! ## Claim about the cached credential fetcher -/

/-- C6: `fetch_credentials` consults the cache first — a non-expired hit
is returned (normalized) without calling `_get_credentials` and without
touching the cache; a miss calls `_get_credentials` exactly once, writes
the raw response back, and returns its normalization; consequently
fetching and then fetching again before the fetched credentials expire
performs exactly one underlying call and yields the same metadata both
times. -/
theorem c6_cache_roundtrip (cache : CredCache) (key : String)
    (now : Int) (fetched : STSResponse) :
    (∀ r : STSResponse, cache.lookup key = some r →
      cacheEntryExpired r now = false →
      _get_cached_credentials fetched cache key now
        = (normalizeResponse r, cache, 0)) ∧
    (_load_from_cache cache key now = none →
      _get_cached_credentials fetched cache key now
        = (normalizeResponse fetched, _write_to_cache cache key fetched, 1)) ∧
    (∀ now' : Int, _load_from_cache cache key now = none →
      now' < fetched.credentials.expiration →
      (_get_cached_credentials fetched cache key now).2.2
        + (_get_cached_credentials fetched
            (_get_cached_credentials fetched cache key now).2.1 key now').2.2
        = 1 ∧
      (_get_cached_credentials fetched
          (_get_cached_credentials fetched cache key now).2.1 key now').1
        = (_get_cached_credentials fetched cache key now).1) := by
  refine ⟨?_, ?_, ?_⟩
  · intro r hr hne
    simp [_get_cached_credentials, _load_from_cache, hr, hne]
  · intro h
    simp [_get_cached_credentials, h]
  · intro now' h hexp
    have hmiss : _get_cached_credentials fetched cache key now
        = (normalizeResponse fetched, _write_to_cache cache key fetched, 1) := by
      simp [_get_cached_credentials, h]
    have hfreshHit : _load_from_cache (_write_to_cache cache key fetched) key now'
        = some fetched := by
      simp [_load_from_cache, _write_to_cache, List.lookup, cacheEntryExpired]
      omega
    rw [hmiss]
    simp [_get_cached_credentials, hfreshHit]

/-- Witness for C6: an empty cache, one fetch at time 0, a second fetch
at time 50 before the credentials expire at 1000 — one underlying call in
total and identical metadata. -/
theorem c6_cache_roundtrip_witness :
    (_get_cached_credentials ⟨⟨"AK", "SK", "TK", 1000⟩⟩ [] "k" 0).2.2
      + (_get_cached_credentials ⟨⟨"AK", "SK", "TK", 1000⟩⟩
          (_get_cached_credentials ⟨⟨"AK", "SK", "TK", 1000⟩⟩ [] "k" 0).2.1
          "k" 50).2.2
      = 1 ∧
    (_get_cached_credentials ⟨⟨"AK", "SK", "TK", 1000⟩⟩
        (_get_cached_credentials ⟨⟨"AK", "SK", "TK", 1000⟩⟩ [] "k" 0).2.1
        "k" 50).1
      = (_get_cached_credentials ⟨⟨"AK", "SK", "TK", 1000⟩⟩ [] "k" 0).1 :=
  (c6_cache_roundtrip [] "k" 0 ⟨⟨"AK", "SK", "TK", 1000⟩⟩).2.2 50
    (by decide) (by decide)

/-! ## Claims about assume-role source resolution and the sourcer -/

/-- The profile map exhibiting the missing `await` at source line 606:
profile `A` assumes a role with `source_profile = B`, and `B` itself
carries role-assumption config (`source_profile = C`, `C` static). -/
def c8_profiles : ProfileMap :=
  [("A", ⟨some "arn:aws:iam::123:role/X", some "B", none, none, none, none⟩),
   ("B", ⟨some "arn:aws:iam::123:role/Y", some "C", none, none, none, none⟩),
   ("C", ⟨none, none, none, some "CAK", some "CSK", none⟩)]

/-- C8: resolving the source credentials of a source profile that itself
carries role-assumption config takes the recursion branch of
`_resolve_credentials_from_profile`, but source line 606 returns
`self._load_creds_via_assume_role(profile_name)` without `await`, so the
caller receives the coroutine object — never a resolved credential — and
that is what gets bound into the assume-role fetcher.  The static branch
behaves as claimed: a source profile with static keys and no
profile-provider builder yields those keys directly. -/
theorem c8_source_profile_recursion :
    _resolve_credentials_from_profile c8_profiles true (fun _ => none) "B"
      = .ok (.unawaitedCoroutine "B") ∧
    _resolve_credentials_from_profile
        [("B", ⟨none, none, none, some "BAK", some "BSK", none⟩)] false
        (fun _ => none) "B"
      = .ok (.credsVal ⟨"BAK", "BSK", none⟩) :=
  ⟨rfl, rfl⟩

/-- C9: `source_credentials` on the SharedConfig/SharedCredentials family
when both the named provider and an assume-role provider are registered
goes through a composite two-provider resolver trying assume-role first;
with only the assume-role provider registered it is used alone; with
neither registered — or for any other unknown canonical name — the lookup
raises `UnknownCredentialError`. -/
theorem c9_canonical_name_sourcing (providers : List SourcedProvider)
    (name : String) :
    ((strLower name = "sharedconfig" ∨ strLower name = "sharedcredentials") →
      (∀ a p, _get_provider_by_method providers "assume-role" = some a →
        _get_provider_by_canonical_name providers name = some p →
        _get_provider providers name = .ok (.resolver [a, p]) ∧
        source_credentials providers name
          = .ok (load_credentials [a.loadResult, p.loadResult])) ∧
      (∀ a, _get_provider_by_method providers "assume-role" = some a →
        _get_provider_by_canonical_name providers name = none →
        _get_provider providers name = .ok (.single a) ∧
        source_credentials providers name = .ok a.loadResult) ∧
      (_get_provider_by_method providers "assume-role" = none →
        _get_provider_by_canonical_name providers name = none →
        _get_provider providers name = .error .unknownCredentialError ∧
        source_credentials providers name = .error .unknownCredentialError)) ∧
    (¬(strLower name = "sharedconfig" ∨ strLower name = "sharedcredentials") →
      _get_provider_by_canonical_name providers name = none →
      _get_provider providers name = .error .unknownCredentialError ∧
      source_credentials providers name = .error .unknownCredentialError) := by
  constructor
  · intro hshared
    have hfam : (strLower name = "sharedconfig" ||
        strLower name = "sharedcredentials") = true := by
      rcases hshared with h | h <;> simp [h]
    refine ⟨?_, ?_, ?_⟩
    · intro a p ha hp
      constructor
      · simp [_get_provider, hfam, ha, hp]
      · simp [source_credentials, _get_provider, hfam, ha, hp]
    · intro a ha hp
      constructor
      · simp [_get_provider, hfam, ha, hp]
      · simp [source_credentials, _get_provider, hfam, ha, hp]
    · intro ha hp
      constructor
      · simp [_get_provider, hfam, ha, hp]
      · simp [source_credentials, _get_provider, hfam, ha, hp]
  · intro hshared hp
    have hfam : (strLower name = "sharedconfig" ||
        strLower name = "sharedcredentials") = false := by
      push_neg at hshared
      simp [hshared.1, hshared.2]
    constructor
    · simp [_get_provider, hfam, hp]
    · simp [source_credentials, _get_provider, hfam, hp]

/-- Witness for C9: with an assume-role provider and a shared-config
provider registered, looking up `"SharedConfig"` produces the composite
resolver (assume-role first) and loads through it; with neither
registered under a matching name, `"SharedConfig"` is unknown. -/
theorem c9_canonical_name_sourcing_witness :
    _get_provider
        [⟨none, "assume-role", some ⟨"RAK", "RSK", none⟩⟩,
         ⟨some "SharedConfig", "shared-config", some ⟨"FAK", "FSK", none⟩⟩]
        "SharedConfig"
      = .ok (.resolver
          [⟨none, "assume-role", some ⟨"RAK", "RSK", none⟩⟩,
           ⟨some "SharedConfig", "shared-config", some ⟨"FAK", "FSK", none⟩⟩]) ∧
    source_credentials
        [⟨none, "assume-role", some ⟨"RAK", "RSK", none⟩⟩,
         ⟨some "SharedConfig", "shared-config", some ⟨"FAK", "FSK", none⟩⟩]
        "SharedConfig"
      = .ok (some ⟨"RAK", "RSK", none⟩) ∧
    _get_provider [⟨some "Environment", "env", none⟩] "SharedConfig"
      = .error .unknownCredentialError := by
  have h := (c9_canonical_name_sourcing
    [⟨none, "assume-role", some ⟨"RAK", "RSK", none⟩⟩,
     ⟨some "SharedConfig", "shared-config", some ⟨"FAK", "FSK", none⟩⟩]
    "SharedConfig").1 (Or.inl (by decide)) |>.1
    ⟨none, "assume-role", some ⟨"RAK", "RSK", none⟩⟩
    ⟨some "SharedConfig", "shared-config", some ⟨"FAK", "FSK", none⟩⟩
    (by decide) (by decide)
  refine ⟨h.1, h.2, ?_⟩
  exact ((c9_canonical_name_sourcing
    [⟨some "Environment", "env", none⟩] "SharedConfig").1
    (Or.inl (by decide))).2.2 (by decide) (by decide) |>.1
/-! ## Single-flight refresh under concurrency -/

/-- The inductive invariant of the concurrent refresh system started
with `n` callers on a credential in state `s₀` past its mandatory window,
where `refresh_using` returns the comfortably fresh metadata `m`: either
no refresh has completed yet (the credential is still `s₀`, the lock is
held exactly when one task sits inside `refresh_using`, and nobody has
returned), or exactly one refresh has completed (the credential carries
`m`, the lock is free and nobody is refreshing). -/
def RefreshInv (s₀ : RefreshableState) (m : CredentialMetadata) (n : Nat)
    (s : RefreshSys) : Prop :=
  s.nNotStarted + s.nWaiting + s.nRefreshing + s.nDone = n ∧
  ((s.refreshCount = 0 ∧ s.cred = s₀ ∧ (s.lockHeld = true ↔ s.nRefreshing = 1) ∧
      s.nRefreshing ≤ 1 ∧ s.nDone = 0) ∨
   (s.refreshCount = 1 ∧ s.cred = applyRefreshData m s₀ ∧ s.lockHeld = false ∧
      s.nRefreshing = 0))

theorem refreshInv_step (s₀ : RefreshableState) (m : CredentialMetadata)
    (now : Int) (n : Nat)
    (h₀ : refresh_needed s₀ mandatory_refresh_timeout now = true)
    (hm : advisory_refresh_timeout ≤ m.expiry_time - now)
    {s s' : RefreshSys} (hstep : RefreshStep now m s s')
    (hinv : RefreshInv s₀ m n s) : RefreshInv s₀ m n s' := by
  have hadv₀ : refresh_needed s₀ advisory_refresh_timeout now = true :=
    refresh_needed_mandatory_advisory s₀ now h₀
  have hfreshAdv : refresh_needed (applyRefreshData m s₀)
      advisory_refresh_timeout now = false :=
    refresh_needed_after_fresh_data m s₀ _ now le_rfl hm
  have hfreshMan : refresh_needed (applyRefreshData m s₀)
      mandatory_refresh_timeout now = false :=
    refresh_needed_after_fresh_data m s₀ _ now (by norm_num
      [advisory_refresh_timeout, mandatory_refresh_timeout]) hm
  obtain ⟨hsum, hAB⟩ := hinv
  cases hstep with
  | startReturnFresh hn hfresh =>
    rcases hAB with ⟨hc, hcred, hlock, hle, hdone⟩ | ⟨hc, hcred, hlock, href⟩
    · rw [hcred, hadv₀] at hfresh; exact absurd hfresh (by simp)
    · exact ⟨by simp; omega, Or.inr ⟨hc, hcred, hlock, href⟩⟩
  | startRefresh hn hneed hlockfree =>
    rcases hAB with ⟨hc, hcred, hlock, hle, hdone⟩ | ⟨hc, hcred, hlock, href⟩
    · have hz : s.nRefreshing = 0 := by
        rcases Nat.eq_zero_or_pos s.nRefreshing with h | h
        · exact h
        · exact absurd (hlock.mpr (by omega)) (by simp [hlockfree])
      refine ⟨by simp; omega, Or.inl ⟨hc, hcred, by simp [hz], by simp [hz], hdone⟩⟩
    · rw [hcred, hfreshAdv] at hneed; exact absurd hneed (by simp)
  | startWait hn hneed hlockheld hman =>
    rcases hAB with ⟨hc, hcred, hlock, hle, hdone⟩ | ⟨hc, hcred, hlock, href⟩
    · exact ⟨by simp; omega, Or.inl ⟨hc, hcred, hlock, hle, hdone⟩⟩
    · rw [hlock] at hlockheld; exact absurd hlockheld (by simp)
  | startAdvisorySkip hn hneed hlockheld hman =>
    rcases hAB with ⟨hc, hcred, hlock, hle, hdone⟩ | ⟨hc, hcred, hlock, href⟩
    · rw [hcred, h₀] at hman; exact absurd hman (by simp)
    · rw [hlock] at hlockheld; exact absurd hlockheld (by simp)
  | completeRefresh hn hnexp =>
    rcases hAB with ⟨hc, hcred, hlock, hle, hdone⟩ | ⟨hc, hcred, hlock, href⟩
    · exact ⟨by simp; omega,
        Or.inr ⟨by simp [hc], by simp [hcred], rfl, by simp; omega⟩⟩
    · rw [href] at hn; exact absurd hn (by simp)
  | resumeFresh hn hlockfree hman =>
    rcases hAB with ⟨hc, hcred, hlock, hle, hdone⟩ | ⟨hc, hcred, hlock, href⟩
    · rw [hcred, h₀] at hman; exact absurd hman (by simp)
    · exact ⟨by simp; omega, Or.inr ⟨hc, hcred, hlock, href⟩⟩
  | resumeRefresh hn hlockfree hman =>
    rcases hAB with ⟨hc, hcred, hlock, hle, hdone⟩ | ⟨hc, hcred, hlock, href⟩
    · have hz : s.nRefreshing = 0 := by
        rcases Nat.eq_zero_or_pos s.nRefreshing with h | h
        · exact h
        · exact absurd (hlock.mpr (by omega)) (by simp [hlockfree])
      refine ⟨by simp; omega, Or.inl ⟨hc, hcred, by simp [hz], by simp [hz], hdone⟩⟩
    · rw [hcred, hfreshMan] at hman; exact absurd hman (by simp)

theorem refreshInv_reachable (s₀ : RefreshableState) (m : CredentialMetadata)
    (now : Int) (n : Nat)
    (h₀ : refresh_needed s₀ mandatory_refresh_timeout now = true)
    (hm : advisory_refresh_timeout ≤ m.expiry_time - now)
    {s : RefreshSys}
    (hreach : RefreshReachable now m (initRefreshSys s₀ n) s) :
    RefreshInv s₀ m n s := by
  unfold RefreshReachable at hreach
  induction hreach with
  | refl =>
    exact ⟨by simp [initRefreshSys],
      Or.inl ⟨rfl, rfl, by simp [initRefreshSys], by simp [initRefreshSys], rfl⟩⟩
  | tail _ hstep ih => exact refreshInv_step s₀ m now n h₀ hm hstep ih

/-- C5: with `n ≥ 1` callers concurrently calling `get_frozen_credentials`
on a credential past its mandatory window, and `refresh_using` producing
fresh metadata, every interleaving of the cooperative scheduler in which
all callers return performs exactly one `refresh_using` invocation
(single-flight via the per-object refresh lock).  Moreover, in any step
of the system a caller only ever starts waiting when the refresh lock is
held by an in-flight refresh *and* its mandatory window has elapsed —
callers needing only advisory freshness never block. -/
theorem c5_single_flight (s₀ : RefreshableState) (m : CredentialMetadata)
    (now : Int) (n : Nat) (s : RefreshSys)
    (h₀ : refresh_needed s₀ mandatory_refresh_timeout now = true)
    (hm : advisory_refresh_timeout ≤ m.expiry_time - now)
    (hn : 1 ≤ n)
    (hreach : RefreshReachable now m (initRefreshSys s₀ n) s)
    (hdone : allDone s) :
    s.refreshCount = 1 ∧
    (∀ (now' : Int) (m' : CredentialMetadata) (u v : RefreshSys),
      RefreshStep now' m' u v → u.nWaiting < v.nWaiting →
        u.lockHeld = true ∧
        refresh_needed u.cred mandatory_refresh_timeout now' = true) := by
  constructor
  · obtain ⟨hsum, hAB⟩ := refreshInv_reachable s₀ m now n h₀ hm hreach
    obtain ⟨h1, h2, h3⟩ := hdone
    rcases hAB with ⟨hc, _, _, _, hdone0⟩ | ⟨hc, _, _, _⟩
    · omega
    · exact hc
  · intro now' m' u v hstep hwait
    cases hstep with
    | startReturnFresh hnu hfresh => simp at hwait
    | startRefresh hnu hneed hlockfree => simp at hwait
    | startWait hnu hneed hlockheld hman => exact ⟨hlockheld, hman⟩
    | startAdvisorySkip hnu hneed hlockheld hman => simp at hwait
    | completeRefresh hnu hnexp => simp at hwait
    | resumeFresh hnu hlockfree hman => exact absurd hwait (by simp)
    | resumeRefresh hnu hlockfree hman => exact absurd hwait (by simp)

/-- Concrete data for the C5 witness: a credential 100 seconds past
expiry and a refresh result valid for 100000 seconds. -/
def c5_init_cred : RefreshableState :=
  ⟨some "AK", some "SK", some "TK", some (-100),
    some ⟨some "AK", some "SK", some "TK"⟩⟩

def c5_meta : CredentialMetadata := ⟨some "AK2", some "SK2", some "TK2", 100000⟩

def c5_final : RefreshSys :=
  { cred := applyRefreshData c5_meta c5_init_cred, lockHeld := false,
    nNotStarted := 0, nWaiting := 0, nRefreshing := 0, nDone := 2,
    refreshCount := 1 }

/-- Witness for C5: two concurrent callers — one refreshes, the other
waits for the lock and then finds the credential fresh — ending with a
single `refresh_using` invocation. -/
theorem c5_single_flight_witness : c5_final.refreshCount = 1 := by
  have h1 : RefreshStep 0 c5_meta (initRefreshSys c5_init_cred 2)
      { cred := c5_init_cred, lockHeld := true, nNotStarted := 1,
        nWaiting := 0, nRefreshing := 1, nDone := 0, refreshCount := 0 } :=
    RefreshStep.startRefresh (initRefreshSys c5_init_cred 2)
      (by decide) (by decide) rfl
  have h2 : RefreshStep 0 c5_meta
      { cred := c5_init_cred, lockHeld := true, nNotStarted := 1,
        nWaiting := 0, nRefreshing := 1, nDone := 0, refreshCount := 0 }
      { cred := c5_init_cred, lockHeld := true, nNotStarted := 0,
        nWaiting := 1, nRefreshing := 1, nDone := 0, refreshCount := 0 } :=
    RefreshStep.startWait _ (by decide) (by decide) rfl (by decide)
  have h3 : RefreshStep 0 c5_meta
      { cred := c5_init_cred, lockHeld := true, nNotStarted := 0,
        nWaiting := 1, nRefreshing := 1, nDone := 0, refreshCount := 0 }
      { cred := applyRefreshData c5_meta c5_init_cred, lockHeld := false,
        nNotStarted := 0, nWaiting := 1, nRefreshing := 0, nDone := 1,
        refreshCount := 1 } :=
    RefreshStep.completeRefresh _ (by decide) (by decide)
  have h4 : RefreshStep 0 c5_meta
      { cred := applyRefreshData c5_meta c5_init_cred, lockHeld := false,
        nNotStarted := 0, nWaiting := 1, nRefreshing := 0, nDone := 1,
        refreshCount := 1 } c5_final :=
    RefreshStep.resumeFresh _ (by decide) rfl (by decide)
  have htr : RefreshReachable 0 c5_meta (initRefreshSys c5_init_cred 2)
      c5_final :=
    Relation.ReflTransGen.tail
      (Relation.ReflTransGen.tail
        (Relation.ReflTransGen.tail
          (Relation.ReflTransGen.tail Relation.ReflTransGen.refl h1) h2) h3) h4
  exact (c5_single_flight c5_init_cred c5_meta 0 2 c5_final
    (by decide) (by decide) (by decide) htr ⟨rfl, rfl, rfl⟩).1
